import Mathlib

/-!
Shallow embedding of `packages/gatsby-cli/src/reporter/index.js`: the gatsby
CLI reporter facade (error normalization, spinner/progress activity trackers,
color configuration, panic entry points).

External collaborators (terminal rendering backend, tracing client, telemetry
client, error formatter) are modelled as explicit state that records the calls
the reporter makes into them, so that claims about the sequence and content of
those calls become provable statements about pure functions.
-/

namespace GatsbyReporter

/-- A JS native `Error` object, reduced to the one field the reporter reads. -/
structure NativeError where
  message : String
deriving Repr, DecidableEq

/-- The `context` object attached to a structured error.  In the source the
branches of `reporter.error` always set a `sourceMessage`, but a pre-built
details object passed through may lack one, hence the `Option`. -/
structure ErrContext where
  sourceMessage : Option String
deriving Repr, DecidableEq

/-- A JS value that may be passed to `reporter.error` (either positional
argument).  `obj` is a pre-built details bag carrying an optional `error`
field and an optional `context` field, as in
`reporter.error({ context: { sourceMessage }, error })`. -/
inductive ErrInput where
  | str : String → ErrInput
  | num : Int → ErrInput
  | err : NativeError → ErrInput
  | arr : List ErrInput → ErrInput
  | obj : Option NativeError → Option ErrContext → ErrInput
  | nullv : ErrInput
  | undef : ErrInput
deriving Repr

/-- The `details` record built by `reporter.error` (`let details = {}` and the
assignments that follow in each dispatch branch). -/
structure Details where
  error : Option ErrInput := none
  context : Option ErrContext := none
deriving Repr

/-- Result of `reporter.error`: a single structured error, or (for the array
shapes) an ordered sequence of results, mirroring `Array.prototype.map`. -/
inductive ErrResult where
  | single : Details → ErrResult
  | seq : List ErrResult → ErrResult
deriving Repr

/-- JS truthiness of the values `reporter.error` can store in
`details.error`, used by the `if (structuredError.error)` guard. -/
def ErrInput.truthy : ErrInput → Bool
  | .str s => !s.isEmpty
  | .num n => n != 0
  | .nullv => false
  | .undef => false
  | _ => true

/-- The state the rendering backend keeps for one activity, written through
`createActivity` and `activity.update(...)` / `activity.done()`.  `updates`
counts the `update` calls pushed and `doneCount` the `done` calls. -/
structure ActivityRecord where
  type : String
  id : String
  status : Option String := none
  startTime : Option Nat := none
  current : Option Int := none
  total : Option Int := none
  updates : Nat := 0
  doneCount : Nat := 0
deriving Repr, DecidableEq

/-- A partial update object passed to `activity.update({...})`. -/
structure ActivityUpdate where
  startTime : Option Nat := none
  status : Option String := none
  current : Option Int := none
  total : Option Int := none
deriving Repr, DecidableEq

/-- `activity.update(partial)`: merge the provided fields and push one update
to the rendering backend. -/
def ActivityRecord.update (a : ActivityRecord) (u : ActivityUpdate) : ActivityRecord :=
  { a with
    startTime := match u.startTime with | some v => some v | none => a.startTime
    status := match u.status with | some v => some v | none => a.status
    current := match u.current with | some v => some v | none => a.current
    total := match u.total with | some v => some v | none => a.total
    updates := a.updates + 1 }

/-- `activity.done()`. -/
def ActivityRecord.done (a : ActivityRecord) : ActivityRecord :=
  { a with doneCount := a.doneCount + 1 }

/-- `Math.round(convertHrtime(ns).milliseconds)` for a nonnegative elapsed
time of `ns` nanoseconds (`process.hrtime` is modelled as a nanosecond
clock). -/
def roundMs (ns : Nat) : Nat := (ns + 500000) / 1000000

/-- The closure state of the tracker returned by `reporter.activityTimer`:
the captured `startTime` variable (initialized to 0), the backend activity
record, the span finish count and the `ACTIVITY_DURATION` telemetry metrics
emitted via `trackCli`. -/
structure SpinnerTracker where
  name : String
  startTime : Nat
  activity : ActivityRecord
  spanFinishes : Nat
  metrics : List (String × Nat)
deriving Repr, DecidableEq

/-- `reporter.activityTimer(name)`: starts a span and creates a spinner
activity with `id: name` and empty status. -/
def mkSpinner (name : String) : SpinnerTracker :=
  { name := name
    startTime := 0
    activity := { type := "spinner", id := name, status := some "" }
    spanFinishes := 0
    metrics := [] }

/-- Spinner `start()`: unconditionally records the current time into the
captured `startTime` and pushes it to the activity. -/
def SpinnerTracker.start (now : Nat) (t : SpinnerTracker) : SpinnerTracker :=
  { t with
    startTime := now
    activity := t.activity.update { startTime := some now } }

/-- Spinner `setStatus(status)`. -/
def SpinnerTracker.setStatus (status : String) (t : SpinnerTracker) : SpinnerTracker :=
  { t with activity := t.activity.update { status := some status } }

/-- Spinner `end()`: emit one `ACTIVITY_DURATION` metric keyed by the
activity name with the rounded elapsed milliseconds, finish the span, and
mark the activity done. -/
def SpinnerTracker.finishTimer (now : Nat) (t : SpinnerTracker) : SpinnerTracker :=
  { t with
    metrics := t.metrics ++ [(t.name, roundMs (now - t.startTime))]
    spanFinishes := t.spanFinishes + 1
    activity := t.activity.done }

/-- The closure state of the tracker returned by `reporter.createProgress`:
the captured `hasStarted` guard, `current` counter and mutable `total`,
plus the backend activity record and span finish count (no duration metric
exists for progress activities). -/
structure ProgressTracker where
  name : String
  hasStarted : Bool
  current : Int
  total : Int
  activity : ActivityRecord
  spanFinishes : Nat
deriving Repr, DecidableEq

/-- `reporter.createProgress(name, total, start = 0)`. -/
def mkProgress (name : String) (total : Int) (start : Int := 0) : ProgressTracker :=
  { name := name
    hasStarted := false
    current := start
    total := total
    activity := { type := "progress", id := name, current := some start, total := some total }
    spanFinishes := 0 }

/-- Progress `start()`: guarded by `hasStarted`; a repeated call returns
immediately without touching the recorded start time. -/
def ProgressTracker.start (now : Nat) (t : ProgressTracker) : ProgressTracker :=
  if t.hasStarted then t
  else
    { t with
      hasStarted := true
      activity := t.activity.update { startTime := some now } }

/-- Progress `setStatus(status)`. -/
def ProgressTracker.setStatus (status : String) (t : ProgressTracker) : ProgressTracker :=
  { t with activity := t.activity.update { status := some status } }

/-- Progress `tick()`: `activity.update({ current: ++current })` with no
bound check against `total`. -/
def ProgressTracker.tick (t : ProgressTracker) : ProgressTracker :=
  { t with
    current := t.current + 1
    activity := t.activity.update { current := some (t.current + 1) } }

/-- Progress `done()`: finish the span and mark the activity done. -/
def ProgressTracker.done (t : ProgressTracker) : ProgressTracker :=
  { t with spanFinishes := t.spanFinishes + 1, activity := t.activity.done }

/-- Progress `set total(value)`: assign and push an update. -/
def ProgressTracker.setTotal (v : Int) (t : ProgressTracker) : ProgressTracker :=
  { t with total := v, activity := t.activity.update { total := some v } }

/-- Iterate `tick()` `n` times. -/
def ProgressTracker.tickN : Nat → ProgressTracker → ProgressTracker
  | 0, t => t
  | n + 1, t => ProgressTracker.tickN n t.tick

/-- The process-wide color configuration the reporter mutates:
`backendColors` is the last value handed to `reporterInstance.setColors`,
and `formatterNoColors` records whether `errorFormatter.withoutColors()`
has ever been invoked (the formatter exposes no inverse operation). -/
structure ReporterConfig where
  backendColors : Bool := false
  formatterNoColors : Bool := false
deriving Repr, DecidableEq

/-- `reporter.setNoColor(isNoColor)`: forwards the flag to
`reporterInstance.setColors` and, when the flag is true, switches the error
formatter to its colorless mode. -/
def setNoColor (isNoColor : Bool) (c : ReporterConfig) : ReporterConfig :=
  let c1 := { c with backendColors := isNoColor }
  if isNoColor then { c1 with formatterNoColors := true } else c1

/-- Remove every ANSI escape character from a string (every ANSI color code
begins with the escape character, so the result carries no color codes). -/
def stripAnsiChars (s : String) : String :=
  String.mk (s.data.filter (fun ch => ch != Char.ofNat 27))

/-- Modelled from the spec: `getErrorFormatter` from `./errors` is not under
`src/`; per the spec the formatter exposes `render(nativeError) → string` and
`withoutColors()`, and after `withoutColors()` its renders contain no ANSI
color codes, while a colored render wraps the message in ANSI codes. -/
def renderFormatted (noColors : Bool) (e : NativeError) : String :=
  if noColors then stripAnsiChars e.message
  else "\x1b[31m" ++ e.message ++ "\x1b[39m"

/-- Whether a string contains the ANSI escape character (the introducer of
every ANSI color code). -/
def containsAnsi (s : String) : Bool :=
  s.data.any (fun ch => ch == Char.ofNat 27)

mutual

/-- JS string coercion, as applied to `errorMeta` by the concatenation
`errorMeta + " " + error.message` in the two-argument branch. -/
def jsToString : ErrInput → String
  | .str s => s
  | .num n => toString n
  | .nullv => "null"
  | .undef => "undefined"
  | .err e => "Error: " ++ e.message
  | .arr xs => jsToStringList xs
  | .obj _ _ => "[object Object]"

/-- JS `Array.prototype.toString`: elements joined by commas. -/
def jsToStringList : List ErrInput → String
  | [] => ""
  | [x] => jsToString x
  | x :: xs => jsToString x ++ "," ++ jsToStringList xs

end

/-- Reading `error.message` in JS: throws a TypeError when `error` is `null`
or `undefined`; yields the message for an `Error`; yields `undefined`
(which the `+` concatenation renders as the string `undefined`) for every
other value. -/
def jsMessage : ErrInput → Except Unit String
  | .nullv => .error ()
  | .undef => .error ()
  | .err e => .ok e.message
  | _ => .ok "undefined"

/-- Modelled from the spec: `constructError` from
`../structured-errors/construct-error` is not under `src/`.  The spec's data
model treats the normalizer's output as already being the StructuredError
shape `{ context: { sourceMessage }, error? }`, so construction passes the
details bag through. -/
def constructError (details : Details) : Details := details

mutual

/-- `reporter.error(errorMeta, error)`.  The first argument is `errorMeta`;
a `some` second argument models `arguments.length === 2`.  Each dispatch
branch of the source builds `details` and returns
`constructError({ details })`; the array branches map the call over the
elements and return the ordered sequence of results.  A thrown TypeError
(reading `.message` of `null`/`undefined`) is `Except.error`. -/
def reporterError : ErrInput → Option ErrInput → Except Unit ErrResult
  | errorMeta, some (ErrInput.arr items) =>
      (mapError2 errorMeta items).map ErrResult.seq
  | errorMeta, some e =>
      match jsMessage e with
      | Except.error u => Except.error u
      | Except.ok msg =>
          Except.ok (ErrResult.single (constructError
            { error := some e
              context := some { sourceMessage := some (jsToString errorMeta ++ " " ++ msg) } }))
  | ErrInput.err e, none =>
      Except.ok (ErrResult.single (constructError
        { error := some (ErrInput.err e)
          context := some { sourceMessage := some e.message } }))
  | ErrInput.arr items, none =>
      (mapError1 items).map ErrResult.seq
  | ErrInput.obj oe oc, none =>
      Except.ok (ErrResult.single (constructError
        { error := oe.map ErrInput.err, context := oc }))
  | ErrInput.str s, none =>
      Except.ok (ErrResult.single (constructError
        { error := none, context := some { sourceMessage := some s } }))
  | _, none =>
      Except.ok (ErrResult.single (constructError {}))
termination_by meta second => sizeOf meta + sizeOf second

/-- `error.map(errorItem => this.error(errorMeta, errorItem))` for the
two-argument array branch. -/
def mapError2 (meta : ErrInput) : List ErrInput → Except Unit (List ErrResult)
  | [] => Except.ok []
  | x :: xs =>
      match reporterError meta (some x) with
      | Except.error u => Except.error u
      | Except.ok r =>
          match mapError2 meta xs with
          | Except.error u => Except.error u
          | Except.ok rs => Except.ok (r :: rs)
termination_by xs => sizeOf meta + sizeOf xs + 1

/-- `errorMeta.map(errorItem => this.error(errorItem))` for the
one-argument array branch. -/
def mapError1 : List ErrInput → Except Unit (List ErrResult)
  | [] => Except.ok []
  | x :: xs =>
      match reporterError x none with
      | Except.error u => Except.error u
      | Except.ok r =>
          match mapError1 xs with
          | Except.error u => Except.error u
          | Except.ok rs => Except.ok (r :: rs)
termination_by xs => sizeOf xs + 1

end

mutual

/-- The error values whose formatted stack trace the call renders: each
recursive invocation logs `errorFormatter.render(structuredError.error)`
exactly when its `structuredError.error` is truthy. -/
def renderedStacks : ErrResult → List ErrInput
  | ErrResult.single d =>
      match d.error with
      | some v => if v.truthy then [v] else []
      | none => []
  | ErrResult.seq rs => renderedStacksList rs

/-- Stack renders collected across a sequence of results, in order. -/
def renderedStacksList : List ErrResult → List ErrInput
  | [] => []
  | r :: rs => renderedStacks r ++ renderedStacksList rs

end

mutual

/-- Whether every structured error in a result has a context whose
`sourceMessage` is present and non-empty. -/
def allMsgsNonempty : ErrResult → Bool
  | ErrResult.single d =>
      match d.context with
      | some c =>
          match c.sourceMessage with
          | some s => !s.isEmpty
          | none => false
      | none => false
  | ErrResult.seq rs => allMsgsNonemptyList rs

/-- `allMsgsNonempty` over a sequence. -/
def allMsgsNonemptyList : List ErrResult → Bool
  | [] => true
  | r :: rs => allMsgsNonempty r && allMsgsNonemptyList rs

end

/-- A successful call whose every structured error carries a non-empty
`sourceMessage`. -/
def resultOkNonempty : Except Unit ErrResult → Bool
  | Except.ok r => allMsgsNonempty r
  | Except.error _ => false

mutual

/-- Supported one-argument shapes with a usable message: a non-empty string,
an `Error` with non-empty message, an array of such inputs, or a pre-built
object carrying a non-empty `sourceMessage`. -/
def goodSingle : ErrInput → Bool
  | .str s => !s.isEmpty
  | .err e => !e.message.isEmpty
  | .arr xs => goodSingleList xs
  | .obj _ oc =>
      match oc with
      | some c =>
          match c.sourceMessage with
          | some s => !s.isEmpty
          | none => false
      | none => false
  | _ => false

/-- `goodSingle` over the elements of an array. -/
def goodSingleList : List ErrInput → Bool
  | [] => true
  | x :: xs => goodSingle x && goodSingleList xs

end

mutual

/-- Second arguments on which the two-argument form does not throw: anything
but `null`/`undefined`, including inside nested arrays. -/
def goodSecond : ErrInput → Bool
  | .nullv => false
  | .undef => false
  | .arr xs => goodSecondList xs
  | _ => true

/-- `goodSecond` over the elements of an array. -/
def goodSecondList : List ErrInput → Bool
  | [] => true
  | x :: xs => goodSecond x && goodSecondList xs

end

/-- Goodness of a whole call: for one argument, `goodSingle`; for two
arguments, `goodSecond` on the second (the separator space already makes the
combined `sourceMessage` non-empty whatever the prefix is). -/
def goodCall (meta : ErrInput) (second : Option ErrInput) : Bool :=
  match second with
  | none => goodSingle meta
  | some e => goodSecond e

/-- The observable outcome of `reporter.panicOnBuild`: the normalized
structured error(s) returned by `this.error(...args)`, the telemetry event
recorded by `trackError`, and whether `process.exit(1)` ran. -/
structure PanicReport where
  structured : ErrResult
  event : String
  exited : Bool

/-- `reporter.panicOnBuild(...args)`: normalize and report the error, record
a `BUILD_PANIC` telemetry event, and exit exactly when
`process.env.gatsby_executing_command` equals `build`. -/
def panicOnBuild (meta : ErrInput) (second : Option ErrInput) (env : Option String) :
    Except Unit PanicReport :=
  (reporterError meta second).map fun r =>
    { structured := r, event := "BUILD_PANIC", exited := env == some "build" }

/-- Whether a call completed without a thrown exception. -/
def okB {α : Type} : Except Unit α → Bool
  | Except.ok _ => true
  | Except.error _ => false

/-- Second arguments (including absence) on which `reporter.error` does not
throw. -/
def noNullSecond : Option ErrInput → Bool
  | none => true
  | some e => goodSecond e

/-- Nonemptiness checker applied to the outcome of a mapped array branch. -/
def listOkNonempty : Except Unit (List ErrResult) → Bool
  | Except.ok rs => allMsgsNonemptyList rs
  | Except.error _ => false

/-! ### Helper lemmas -/

theorem append_space_isEmpty_false (a m : String) : (a ++ " " ++ m).isEmpty = false := by
  rw [Bool.eq_false_iff]
  intro h
  have h2 : a ++ " " ++ m = "" := (String.isEmpty_iff _).mp h
  have h3 : (a ++ " " ++ m).length = 0 := by rw [h2]; rfl
  simp [String.length_append] at h3
  exact absurd h3.1.2 (by decide)

theorem tickN_current (n : Nat) (p : ProgressTracker) :
    (ProgressTracker.tickN n p).current = p.current + n := by
  induction n generalizing p with
  | zero => simp [ProgressTracker.tickN]
  | succ k ih =>
      rw [ProgressTracker.tickN, ih]
      simp [ProgressTracker.tick]
      ring

theorem tickN_updates (n : Nat) (p : ProgressTracker) :
    (ProgressTracker.tickN n p).activity.updates = p.activity.updates + n := by
  induction n generalizing p with
  | zero => simp [ProgressTracker.tickN]
  | succ k ih =>
      rw [ProgressTracker.tickN, ih]
      simp [ProgressTracker.tick, ActivityRecord.update]
      omega

theorem stripAnsiChars_no_ansi (s : String) : containsAnsi (stripAnsiChars s) = false := by
  rw [Bool.eq_false_iff]
  intro h
  simp only [containsAnsi, stripAnsiChars, List.any_eq_true, List.mem_filter] at h
  obtain ⟨ch, ⟨_, hne⟩, heq⟩ := h
  rw [beq_iff_eq] at heq
  rw [heq] at hne
  simp at hne

theorem setNoColor_preserves_latch (b : Bool) (c : ReporterConfig)
    (hc : c.formatterNoColors = true) : (setNoColor b c).formatterNoColors = true := by
  cases b <;> simp [setNoColor, hc]

theorem foldl_setNoColor_latch (bs : List Bool) :
    ∀ c : ReporterConfig, c.formatterNoColors = true →
      (bs.foldl (fun acc b => setNoColor b acc) c).formatterNoColors = true := by
  induction bs with
  | nil => intro c hc; simpa using hc
  | cons b bs ih => intro c hc; exact ih _ (setNoColor_preserves_latch b c hc)

mutual

theorem reporterError_none_ok : (x : ErrInput) → okB (reporterError x none) = true
  | ErrInput.str s => by simp [reporterError, okB]
  | ErrInput.num n => by simp [reporterError, okB]
  | ErrInput.err e => by simp [reporterError, okB]
  | ErrInput.arr xs => by
      have h := mapError1_ok xs
      cases hx : mapError1 xs with
      | ok rs => simp [reporterError, hx, Except.map, okB]
      | error u => rw [hx] at h; simp [okB] at h
  | ErrInput.obj oe oc => by simp [reporterError, okB]
  | ErrInput.nullv => by simp [reporterError, okB]
  | ErrInput.undef => by simp [reporterError, okB]

theorem mapError1_ok : (xs : List ErrInput) → okB (mapError1 xs) = true
  | [] => by simp [mapError1, okB]
  | x :: xs => by
      have h1 := reporterError_none_ok x
      have h2 := mapError1_ok xs
      cases hx : reporterError x none with
      | error u => rw [hx] at h1; simp [okB] at h1
      | ok r =>
          cases hxs : mapError1 xs with
          | error u => rw [hxs] at h2; simp [okB] at h2
          | ok rs => simp [mapError1, hx, hxs, okB]

end

mutual

theorem reporterError_some_ok (meta : ErrInput) :
    (e : ErrInput) → goodSecond e = true → okB (reporterError meta (some e)) = true
  | ErrInput.arr xs, h => by
      have hl := mapError2_ok meta xs (by simpa [goodSecond] using h)
      cases hx : mapError2 meta xs with
      | ok rs => simp [reporterError, hx, Except.map, okB]
      | error u => rw [hx] at hl; simp [okB] at hl
  | ErrInput.str s, _ => by simp [reporterError, jsMessage, okB]
  | ErrInput.num n, _ => by simp [reporterError, jsMessage, okB]
  | ErrInput.err e2, _ => by simp [reporterError, jsMessage, okB]
  | ErrInput.obj oe oc, _ => by simp [reporterError, jsMessage, okB]
  | ErrInput.nullv, h => by simp [goodSecond] at h
  | ErrInput.undef, h => by simp [goodSecond] at h

theorem mapError2_ok (meta : ErrInput) :
    (xs : List ErrInput) → goodSecondList xs = true → okB (mapError2 meta xs) = true
  | [], _ => by simp [mapError2, okB]
  | x :: xs, h => by
      have hsplit : goodSecond x = true ∧ goodSecondList xs = true := by
        simpa [goodSecondList, Bool.and_eq_true] using h
      have h1 := reporterError_some_ok meta x hsplit.1
      have h2 := mapError2_ok meta xs hsplit.2
      cases hx : reporterError meta (some x) with
      | error u => rw [hx] at h1; simp [okB] at h1
      | ok r =>
          cases hxs : mapError2 meta xs with
          | error u => rw [hxs] at h2; simp [okB] at h2
          | ok rs => simp [mapError2, hx, hxs, okB]

end

mutual

theorem reporterError_none_nonempty :
    (x : ErrInput) → goodSingle x = true → resultOkNonempty (reporterError x none) = true
  | ErrInput.str s, h => by
      simp [goodSingle] at h
      simp [reporterError, constructError, resultOkNonempty, allMsgsNonempty, h]
  | ErrInput.err e, h => by
      simp [goodSingle] at h
      simp [reporterError, constructError, resultOkNonempty, allMsgsNonempty, h]
  | ErrInput.arr xs, h => by
      have hl := mapError1_nonempty xs (by simpa [goodSingle] using h)
      cases hx : mapError1 xs with
      | error u => rw [hx] at hl; simp [listOkNonempty] at hl
      | ok rs =>
          rw [hx] at hl
          simp [listOkNonempty] at hl
          simp [reporterError, hx, Except.map, resultOkNonempty, allMsgsNonempty, hl]
  | ErrInput.obj oe (some { sourceMessage := some s }), h => by
      simp [goodSingle] at h
      simp [reporterError, constructError, resultOkNonempty, allMsgsNonempty, h]
  | ErrInput.obj oe (some { sourceMessage := none }), h => by
      simp [goodSingle] at h
  | ErrInput.obj oe none, h => by simp [goodSingle] at h
  | ErrInput.num n, h => by simp [goodSingle] at h
  | ErrInput.nullv, h => by simp [goodSingle] at h
  | ErrInput.undef, h => by simp [goodSingle] at h

theorem mapError1_nonempty :
    (xs : List ErrInput) → goodSingleList xs = true → listOkNonempty (mapError1 xs) = true
  | [], _ => by simp [mapError1, listOkNonempty, allMsgsNonemptyList]
  | x :: xs, h => by
      have hsplit : goodSingle x = true ∧ goodSingleList xs = true := by
        simpa [goodSingleList, Bool.and_eq_true] using h
      have h1 := reporterError_none_nonempty x hsplit.1
      have h2 := mapError1_nonempty xs hsplit.2
      cases hx : reporterError x none with
      | error u => rw [hx] at h1; simp [resultOkNonempty] at h1
      | ok r =>
          rw [hx] at h1; simp [resultOkNonempty] at h1
          cases hxs : mapError1 xs with
          | error u => rw [hxs] at h2; simp [listOkNonempty] at h2
          | ok rs =>
              rw [hxs] at h2; simp [listOkNonempty] at h2
              simp [mapError1, hx, hxs, listOkNonempty, allMsgsNonemptyList, h1, h2]

end

mutual

theorem reporterError_some_nonempty (meta : ErrInput) :
    (e : ErrInput) → goodSecond e = true → resultOkNonempty (reporterError meta (some e)) = true
  | ErrInput.arr xs, h => by
      have hl := mapError2_nonempty meta xs (by simpa [goodSecond] using h)
      cases hx : mapError2 meta xs with
      | error u => rw [hx] at hl; simp [listOkNonempty] at hl
      | ok rs =>
          rw [hx] at hl
          simp [listOkNonempty] at hl
          simp [reporterError, hx, Except.map, resultOkNonempty, allMsgsNonempty, hl]
  | ErrInput.str s, _ => by
      simp [reporterError, jsMessage, constructError, resultOkNonempty, allMsgsNonempty,
        append_space_isEmpty_false]
  | ErrInput.num n, _ => by
      simp [reporterError, jsMessage, constructError, resultOkNonempty, allMsgsNonempty,
        append_space_isEmpty_false]
  | ErrInput.err e2, _ => by
      simp [reporterError, jsMessage, constructError, resultOkNonempty, allMsgsNonempty,
        append_space_isEmpty_false]
  | ErrInput.obj oe oc, _ => by
      simp [reporterError, jsMessage, constructError, resultOkNonempty, allMsgsNonempty,
        append_space_isEmpty_false]
  | ErrInput.nullv, h => by simp [goodSecond] at h
  | ErrInput.undef, h => by simp [goodSecond] at h

theorem mapError2_nonempty (meta : ErrInput) :
    (xs : List ErrInput) → goodSecondList xs = true → listOkNonempty (mapError2 meta xs) = true
  | [], _ => by simp [mapError2, listOkNonempty, allMsgsNonemptyList]
  | x :: xs, h => by
      have hsplit : goodSecond x = true ∧ goodSecondList xs = true := by
        simpa [goodSecondList, Bool.and_eq_true] using h
      have h1 := reporterError_some_nonempty meta x hsplit.1
      have h2 := mapError2_nonempty meta xs hsplit.2
      cases hx : reporterError meta (some x) with
      | error u => rw [hx] at h1; simp [resultOkNonempty] at h1
      | ok r =>
          rw [hx] at h1; simp [resultOkNonempty] at h1
          cases hxs : mapError2 meta xs with
          | error u => rw [hxs] at h2; simp [listOkNonempty] at h2
          | ok rs =>
              rw [hxs] at h2; simp [listOkNonempty] at h2
              simp [mapError2, hx, hxs, listOkNonempty, allMsgsNonemptyList, h1, h2]

end

/-! ### Claim theorems -/

/-- Claim C1, counterexample: the claim fails as stated.  A pre-built plain
object with no context field is a supported shape, yet its normalized result
has no sourceMessage at all; and a single empty string is a supported shape
whose normalized sourceMessage is the empty string. -/
theorem C1_counterexample :
    reporterError (ErrInput.obj none none) none =
      Except.ok (ErrResult.single { error := none, context := none }) ∧
    allMsgsNonempty (ErrResult.single { error := none, context := none }) = false ∧
    reporterError (ErrInput.str "") none =
      Except.ok (ErrResult.single { error := none, context := some { sourceMessage := some "" } }) ∧
    allMsgsNonempty
      (ErrResult.single { error := none, context := some { sourceMessage := some "" } }) = false := by
  refine ⟨?_, rfl, ?_, rfl⟩
  · simp [reporterError, constructError]
  · simp [reporterError, constructError]

/-- Claim C1 (amended): for every supported input shape whose message content
is non-empty — a non-empty string, an Error with non-empty message, an array
of such inputs, a pre-built object carrying a non-empty sourceMessage, or a
two-argument call whose second argument is free of null/undefined — the call
succeeds and every structured error in the result has a non-empty
context.sourceMessage. -/
theorem C1_sourceMessage_nonempty (meta : ErrInput) (second : Option ErrInput)
    (h : goodCall meta second = true) :
    resultOkNonempty (reporterError meta second) = true := by
  cases second with
  | none => exact reporterError_none_nonempty meta (by simpa [goodCall] using h)
  | some e => exact reporterError_some_nonempty meta e (by simpa [goodCall] using h)

/-- Claim C1, witness at a concrete input. -/
theorem C1_witness :
    goodCall (ErrInput.str "boom") none = true ∧
    resultOkNonempty (reporterError (ErrInput.str "boom") none) = true :=
  ⟨by decide, C1_sourceMessage_nonempty (ErrInput.str "boom") none (by decide)⟩

/-- Claim C2: for every string prefix and every two Errors, the two-argument
call with the array of those Errors returns the ordered two-element sequence
whose i-th element pairs the i-th error with sourceMessage
prefix ++ " " ++ message, preserving array order. -/
theorem C2_two_arg_array_pairs (p : String) (a b : NativeError) :
    reporterError (ErrInput.str p) (some (ErrInput.arr [ErrInput.err a, ErrInput.err b])) =
      Except.ok (ErrResult.seq
        [ErrResult.single { error := some (ErrInput.err a), context := some { sourceMessage := some (p ++ " " ++ a.message) } },
         ErrResult.single { error := some (ErrInput.err b), context := some { sourceMessage := some (p ++ " " ++ b.message) } }]) := by
  simp [reporterError, mapError2, jsMessage, jsToString, constructError, Except.map]

/-- Claim C3, counterexample: the claim fails as stated.  At the argument
list (p, null) the normalizer reads null.message and throws before
trackError runs, so no BUILD_PANIC event is recorded and no exit occurs even
when gatsby_executing_command equals build. -/
theorem C3_counterexample :
    panicOnBuild (ErrInput.str "p") (some ErrInput.nullv) (some "build") = Except.error () := by
  simp [panicOnBuild, reporterError, jsMessage, Except.map]

/-- Claim C3 (amended): whenever panicOnBuild's underlying normalization
completes without throwing, the call has normalized the error exactly as
reporter.error does, recorded a BUILD_PANIC telemetry event, and terminated
the process if and only if the gatsby_executing_command environment variable
equals build. -/
theorem C3_panicOnBuild_exit_iff (meta : ErrInput) (second : Option ErrInput)
    (env : Option String) (r : PanicReport)
    (h : panicOnBuild meta second env = Except.ok r) :
    (r.exited = true ↔ env = some "build") ∧ r.event = "BUILD_PANIC" ∧
      reporterError meta second = Except.ok r.structured := by
  unfold panicOnBuild at h
  cases hx : reporterError meta second with
  | error u => rw [hx] at h; simp [Except.map] at h
  | ok rr =>
      rw [hx] at h
      simp only [Except.map] at h
      cases h
      refine ⟨?_, rfl, rfl⟩
      simp [beq_iff_eq]

/-- Claim C3 sample outcome for the witness. -/
def buildPanicSample : PanicReport :=
  { structured := ErrResult.single { error := none, context := some { sourceMessage := some "boom" } }
    event := "BUILD_PANIC"
    exited := true }

/-- Claim C3, witness at a concrete input. -/
theorem C3_witness :
    panicOnBuild (ErrInput.str "boom") none (some "build") = Except.ok buildPanicSample ∧
    ((buildPanicSample.exited = true ↔ some "build" = some "build") ∧
      buildPanicSample.event = "BUILD_PANIC" ∧
      reporterError (ErrInput.str "boom") none = Except.ok buildPanicSample.structured) := by
  have hEq : panicOnBuild (ErrInput.str "boom") none (some "build") = Except.ok buildPanicSample := by
    simp [panicOnBuild, reporterError, constructError, Except.map, buildPanicSample]
  exact ⟨hEq, C3_panicOnBuild_exit_iff _ _ _ _ hEq⟩

/-- Claim C4: one end() on the tracker returned by activityTimer(name), after
start(), emits exactly one ACTIVITY_DURATION metric keyed by name whose
duration is the rounded elapsed milliseconds between start and end, finishes
the span exactly once, and marks the activity done exactly once. -/
theorem C4_activityTimer_end (name : String) (t1 t2 : Nat) (h : t1 ≤ t2) :
    (SpinnerTracker.finishTimer t2 (SpinnerTracker.start t1 (mkSpinner name))).metrics
        = [(name, roundMs (t2 - t1))] ∧
    (SpinnerTracker.finishTimer t2 (SpinnerTracker.start t1 (mkSpinner name))).spanFinishes = 1 ∧
    (SpinnerTracker.finishTimer t2
        (SpinnerTracker.start t1 (mkSpinner name))).activity.doneCount = 1 := by
  refine ⟨?_, rfl, rfl⟩
  simp [SpinnerTracker.finishTimer, SpinnerTracker.start, mkSpinner]

/-- Claim C4, witness at a concrete input. -/
theorem C4_witness :
    (2 : Nat) ≤ 7 ∧
    ((SpinnerTracker.finishTimer 7 (SpinnerTracker.start 2 (mkSpinner "x"))).metrics
        = [("x", roundMs (7 - 2))] ∧
     (SpinnerTracker.finishTimer 7 (SpinnerTracker.start 2 (mkSpinner "x"))).spanFinishes = 1 ∧
     (SpinnerTracker.finishTimer 7 (SpinnerTracker.start 2 (mkSpinner "x"))).activity.doneCount = 1) :=
  ⟨by decide, C4_activityTimer_end "x" 2 7 (by decide)⟩

/-- Claim C5: start() idempotence is asymmetric between the two variants.  A
second call to progress start() is a no-op (the whole tracker state,
including the recorded start time, is unchanged), while a repeated spinner
start() resets the recorded start time to the current time. -/
theorem C5_start_asymmetry (p : ProgressTracker) (s : SpinnerTracker) (t1 t2 : Nat) :
    ProgressTracker.start t2 (ProgressTracker.start t1 p) = ProgressTracker.start t1 p ∧
    (SpinnerTracker.start t2 (SpinnerTracker.start t1 s)).startTime = t2 ∧
    (SpinnerTracker.start t2 (SpinnerTracker.start t1 s)).activity.startTime = some t2 := by
  refine ⟨?_, rfl, ?_⟩
  · by_cases hp : p.hasStarted <;> simp [ProgressTracker.start, hp]
  · simp [SpinnerTracker.start, ActivityRecord.update]

/-- Claim C6: every tick() increments the current count by exactly 1 and
pushes exactly one update, so n ticks from a fresh progress tracker yield
current = start + n, for every total and with no upper-bound check. -/
theorem C6_tick_counts (q : ProgressTracker) (name : String) (total st : Int) (n : Nat) :
    (ProgressTracker.tick q).current = q.current + 1 ∧
    (ProgressTracker.tick q).activity.updates = q.activity.updates + 1 ∧
    (ProgressTracker.tickN n (mkProgress name total st)).current = st + n ∧
    (ProgressTracker.tickN n (mkProgress name total st)).activity.updates = n := by
  refine ⟨rfl, rfl, ?_, ?_⟩
  · rw [tickN_current]; simp [mkProgress]
  · rw [tickN_updates]; simp [mkProgress]

/-- Claim C7: after setNoColor(true) the error formatter is in colorless
mode, the rendering backend's color flag has been set from the same
argument, and a render produced through the formatter in that state contains
no ANSI color codes. -/
theorem C7_setNoColor_colorless (c : ReporterConfig) (e : NativeError) :
    (setNoColor true c).formatterNoColors = true ∧
    (setNoColor true c).backendColors = true ∧
    containsAnsi (renderFormatted (setNoColor true c).formatterNoColors e) = false := by
  refine ⟨rfl, rfl, ?_⟩
  show containsAnsi (renderFormatted true e) = false
  simp [renderFormatted, stripAnsiChars_no_ansi]

/-- Claim C8, counterexample: the claim fails as stated.  The two-argument
call with second argument null reads null.message and throws a TypeError, so
reporter.error does not tolerate every malformed input. -/
theorem C8_counterexample :
    reporterError (ErrInput.str "p") (some ErrInput.nullv) = Except.error () := by
  simp [reporterError, jsMessage]

/-- Claim C8 (amended): reporter.error never throws except when the
two-argument form's second argument is (or, inside nested arrays, contains)
null or undefined; in particular the one-argument form never throws for any
input, and when a structured result carries no error value the stack-trace
rendering step is skipped. -/
theorem C8_no_throw (meta : ErrInput) (second : Option ErrInput)
    (h : noNullSecond second = true) :
    okB (reporterError meta second) = true ∧
    (∀ d : Details, d.error = none → renderedStacks (ErrResult.single d) = []) := by
  constructor
  · cases second with
    | none => exact reporterError_none_ok meta
    | some e => exact reporterError_some_ok meta e (by simpa [noNullSecond] using h)
  · intro d hd
    simp [renderedStacks, hd]

/-- Claim C8, witness at a concrete input. -/
theorem C8_witness :
    noNullSecond (some (ErrInput.err { message := "q" })) = true ∧
    (okB (reporterError (ErrInput.str "p") (some (ErrInput.err { message := "q" }))) = true ∧
      (∀ d : Details, d.error = none → renderedStacks (ErrResult.single d) = [])) :=
  ⟨by decide, C8_no_throw (ErrInput.str "p") (some (ErrInput.err { message := "q" })) (by decide)⟩

/-- Claim C9, counterexample: the claim fails as stated.  An activity's id is
simply its name, so two concurrently live activities created with the same
name share the same id: a fresh spinner and a fresh progress bar both named
x are both live (not done) and have equal ids. -/
theorem C9_counterexample :
    (mkSpinner "x").activity.id = (mkProgress "x" 10 0).activity.id ∧
    (mkSpinner "x").activity.doneCount = 0 ∧
    (mkProgress "x" 10 0).activity.doneCount = 0 :=
  ⟨rfl, rfl, rfl⟩

/-- Claim C9 (amended): an activity's id equals the name it was created
with, so any two live activities created with distinct names have distinct
ids and are independently addressable; nothing enforces uniqueness for equal
names. -/
theorem C9_distinct_names_distinct_ids (n1 n2 : String) (total st : Int) (h : n1 ≠ n2) :
    (mkSpinner n1).activity.id = n1 ∧ (mkProgress n1 total st).activity.id = n1 ∧
    (mkSpinner n1).activity.id ≠ (mkSpinner n2).activity.id ∧
    (mkSpinner n1).activity.id ≠ (mkProgress n2 total st).activity.id ∧
    (mkProgress n1 total st).activity.id ≠ (mkProgress n2 total st).activity.id :=
  ⟨rfl, rfl, by simpa [mkSpinner, mkProgress] using h,
    by simpa [mkSpinner, mkProgress] using h, by simpa [mkProgress] using h⟩

/-- Claim C9, witness at a concrete input. -/
theorem C9_witness :
    ("a" : String) ≠ "b" ∧
    ((mkSpinner "a").activity.id = "a" ∧ (mkProgress "a" 5 0).activity.id = "a" ∧
      (mkSpinner "a").activity.id ≠ (mkSpinner "b").activity.id ∧
      (mkSpinner "a").activity.id ≠ (mkProgress "b" 5 0).activity.id ∧
      (mkProgress "a" 5 0).activity.id ≠ (mkProgress "b" 5 0).activity.id) :=
  ⟨by decide, C9_distinct_names_distinct_ids "a" "b" 5 0 (by decide)⟩

/-- Claim C10: once setNoColor(true) has run, no later sequence of
setNoColor calls — whatever their arguments, including false — ever clears
the formatter's colorless mode: withoutColors has no inverse and the flag
stays set for good. -/
theorem C10_formatter_colorless_latch (bs : List Bool) (c : ReporterConfig) :
    (bs.foldl (fun acc b => setNoColor b acc) (setNoColor true c)).formatterNoColors = true :=
  foldl_setNoColor_latch bs (setNoColor true c) rfl

end GatsbyReporter
